import Mathlib

/-!
Verification of `couch_rs_test` (src/src/lib.rs): a test-fixture helper that
creates a uniquely named CouchDB database per test and destroys it when the
`TestRepo` handle is dropped, via a drop-token / drop-watcher protocol.

The Rust source is shallowly embedded: the external collaborators
(`couch_rs::Client`, the CouchDB server, the RNG) are modelled as pure
oracles; effectful calls are recorded in returned traces; the concurrent
drop protocol is modelled as a small-step transition system.
-/

namespace CouchRsTest

/-- Model of `couch_rs::error::CouchError`: `e.status()` yields an optional
HTTP status code (modelled as a `Nat`); the `Display` rendering of the error
is modelled by its `message` field. -/
structure CouchError where
  status : Option Nat
  message : String
deriving DecidableEq, Repr

/-- `http::status::StatusCode::PRECONDITION_FAILED` is HTTP 412. -/
def PRECONDITION_FAILED : Nat := 412

/-- A log line emitted through `log::info!` or `log::error!`. -/
inductive LogMsg where
  | info (s : String)
  | errorMsg (s : String)
deriving DecidableEq, Repr

/-- Mirror of `TestRepoConfig` (lib.rs:47-52): four owned strings. -/
structure TestRepoConfig where
  uri : String
  username : String
  password : String
  db_name : String
deriving DecidableEq, Repr

/-- Mirror of `TestRepoConfig::new` (lib.rs:57-64). -/
def TestRepoConfig.new (uri uname pwd dbname : String) : TestRepoConfig :=
  { uri := uri, username := uname, password := pwd, db_name := dbname }

/-- Mirror of `TestRepoConfig::with_name` (lib.rs:66-71): functional struct
update replacing only `db_name`. -/
def TestRepoConfig.with_name (cfg : TestRepoConfig) (db_unique_name : String) :
    TestRepoConfig :=
  { cfg with db_name := db_unique_name }

/-! ## Random name generation (lib.rs:106-114)

`rand::distributions::Alphanumeric` samples uniformly from the 62-symbol
alphabet below (uppercase, lowercase, digits, in the order used by `rand`).
The random source is modelled as a function `Nat → Fin 62` giving the i-th
draw; `sample_iter(&Alphanumeric).take(12).map(char::from)` indexes the
alphabet with the first 12 draws, and `String::to_lowercase` (ASCII input)
lowercases each character. -/

/-- The sample set of `rand::distributions::Alphanumeric`. -/
def alphanumericChars : List Char :=
  "ABCDEFGHIJKLMNOPQRSTUVWXYZabcdefghijklmnopqrstuvwxyz0123456789".toList

theorem alphanumericChars_length : alphanumericChars.length = 62 := by decide

/-- Rust `str::to_lowercase` restricted to ASCII input: lowercase each char. -/
def rustToLowercase (s : String) : String :=
  String.mk (s.data.map Char.toLower)

/-- The `test_identifier` computed at lib.rs:107-112: twelve uniform draws
from the alphanumeric alphabet, converted to characters, collected and
lowercased. -/
def test_identifier (src : Nat → Fin 62) : String :=
  rustToLowercase (String.mk ((List.range 12).map fun i =>
    alphanumericChars.get (Fin.cast alphanumericChars_length.symm (src i))))

/-- The lowercase alphanumeric alphabet `[a-z0-9]`. -/
def lowercaseAlnumChars : List Char :=
  "abcdefghijklmnopqrstuvwxyz0123456789".toList

/-! ## Store oracle

The CouchDB server and `couch_rs` client are external collaborators; their
responses are modelled as pure functions of the request arguments.  The
`Client` value itself carries no information the embedding needs, so a
successful `Client::new` returns `Unit`. -/

/-- Responses of the external Store service and client constructor:
`make_db` models `Client::make_db(name)` (lib.rs:127), `destroy_db` models
`Client::destroy_db(name)` (lib.rs:194), and `client_new` models
`couch_rs::Client::new(uri, username, password)` (lib.rs:192). -/
structure StoreOracle where
  make_db : String → Except CouchError Unit
  destroy_db : String → Except CouchError Bool
  client_new : String → String → String → Except CouchError Unit

/-- Outcome of a Rust function that may `panic` with a message. -/
inductive PanicOr (α : Type) where
  | panicked (msg : String)
  | ok (a : α)
deriving DecidableEq, Repr

/-- The `TestRepo` value returned by `TestRepo::new` on success.  The wrapped
repo `T::wrap(&cfg.uri, &cfg.username, &cfg.password, &cfg.db_name)` is
determined by the derived config, which the model retains. -/
structure TestRepoHandle where
  cfg : TestRepoConfig
deriving DecidableEq, Repr

/-- Trace of one call to `TestRepo::new` (lib.rs:105-154).  Besides the
returned value (or panic), it records the construction side effects on the
drop protocol: whether `start_drop_watcher` spawned the watcher task
(lib.rs:120, before `make_db` is called) and whether construction ever
cancelled the fresh `drop_token` (it never does, on any path). -/
structure NewTrace where
  cfg : TestRepoConfig
  watcher_spawned : Bool
  drop_raised : Bool
  result : PanicOr TestRepoHandle
deriving DecidableEq, Repr

/-- Mirror of `TestRepo::new` (lib.rs:105-154).  Control flow of the source:
generate `test_identifier`, derive the unique config with `with_name`, wrap,
create `drop_token := CancellationToken::new()` (unraised), spawn the drop
watcher, then `match` on `make_db`: `Ok` falls through to returning the
handle; `Err(e)` matches on `e.status()`: `Some(PRECONDITION_FAILED)` panics
with the manual-removal message, any other `Some(code)` and `None` panic
with the generic creation-error message.  No branch cancels `drop_token`. -/
def TestRepo.new (src : Nat → Fin 62) (oracle : StoreOracle)
    (arg_cfg : TestRepoConfig) : NewTrace :=
  let db_unique_name := arg_cfg.db_name ++ "-" ++ test_identifier src
  let cfg := arg_cfg.with_name db_unique_name
  { cfg := cfg
    watcher_spawned := true
    drop_raised := false
    result :=
      match oracle.make_db cfg.db_name with
      | .ok _ => .ok { cfg := cfg }
      | .error e =>
        match e.status with
        | some code =>
          if code = PRECONDITION_FAILED then
            .panicked ("Database " ++ cfg.db_name ++
              " already exists and must be manually removed.")
          else
            .panicked ("Error while creating new database: " ++ e.message)
        | none =>
          .panicked ("Error while creating new database: " ++ e.message) }

/-- Outcome of `TestRepo::drop` (the async cleanup fn, lib.rs:190-202):
either a panic (Rust `Result::unwrap` on an `Err`), or normal completion
together with the log lines emitted. -/
inductive DropOutcome where
  | panicked (msg : String)
  | completed (logs : List LogMsg)
deriving DecidableEq, Repr

/-- Whether a `TestRepo::drop` call completed normally (did not panic). -/
def DropOutcome.isCompleted : DropOutcome → Bool
  | .panicked _ => false
  | .completed _ => true

/-- Mirror of `TestRepo::drop` (lib.rs:190-202): reconnect with
`couch_rs::Client::new(&cfg.uri, &cfg.username, &cfg.password).unwrap()` —
the `unwrap` panics if the connection fails — then `match` on
`destroy_db(&cfg.db_name)`: `Ok(true)` and `Ok(false)` log info lines,
`Err(e)` logs an error line; nothing is returned or propagated. -/
def TestRepo.drop (oracle : StoreOracle) (cfg : TestRepoConfig) : DropOutcome :=
  match oracle.client_new cfg.uri cfg.username cfg.password with
  | .error e =>
    .panicked ("called Result::unwrap on an Err value: " ++ e.message)
  | .ok _ =>
    match oracle.destroy_db cfg.db_name with
    | .ok true => .completed [.info ("Cleaned up database " ++ cfg.db_name)]
    | .ok false =>
      .completed [.info ("Failed to clean up database " ++ cfg.db_name)]
    | .error e =>
      .completed [.errorMsg ("Error while cleaning up " ++ cfg.db_name ++
        ": " ++ e.message)]

deriving instance DecidableEq for Except

/-- Observable events of the watcher task after its polling loop has
observed the cancelled drop token (lib.rs:182-184). -/
inductive WatcherEvent where
  | destroyCall (dbname : String) (result : Except CouchError Bool)
  | taskPanicked (msg : String)
  | raiseDropped
deriving DecidableEq, Repr

/-- The tail of the watcher task spawned in `start_drop_watcher`
(lib.rs:177-185) once `drop_child.is_cancelled()` holds: it awaits
`TestRepo::drop(cfg)` and then runs `dropped_token.cancel()`.  If
`TestRepo::drop` panics the tokio task aborts before reaching the `cancel`
call, so no `raiseDropped` event occurs; otherwise the destroy call (with
its outcome) is followed by exactly the one `cancel`. -/
def watcherAfterRequest (oracle : StoreOracle) (cfg : TestRepoConfig) :
    List WatcherEvent :=
  match TestRepo.drop oracle cfg with
  | .panicked m => [.taskPanicked m]
  | .completed _ =>
    [.destroyCall cfg.db_name (oracle.destroy_db cfg.db_name), .raiseDropped]

/-! ## `with_data` (lib.rs:159-166)

`self.repo.client().db(&self.repo.dbname())` fetches a database handle and
`db.bulk_docs(data)` performs the bulk write; both are external calls,
modelled as pure response functions.  The record type is a parameter `α`
(the source is generic over `S : TypedCouchDocument`). -/

/-- Model of one entry of the `Vec<DocumentCreatedResult>` that
`bulk_docs` returns on success. -/
structure DocumentCreatedResult where
  id : String
  okFlag : Bool
deriving DecidableEq, Repr

/-- Model of a `couch_rs` database handle: its response to `bulk_docs`. -/
structure Database (α : Type) where
  bulk_docs : List α → Except CouchError (List DocumentCreatedResult)

/-- Model of a `couch_rs::Client` as seen by `with_data`: its response to
`client.db(name)`. -/
structure Client (α : Type) where
  db : String → Except CouchError (Database α)

/-- The `CouchDBWrapper` accessors used by `with_data`: `self.repo.client()`
and `self.repo.dbname()`. -/
structure WrappedRepo (α : Type) where
  client : Client α
  dbname : String

/-- Mirror of `TestRepo::with_data` (lib.rs:159-166):
`let db = self.repo.client().db(&self.repo.dbname()).await?;`
`let result = db.bulk_docs(data).await?;`
`return Ok(result.len());` — each `?` desugars to an early return of the
`CouchError` unchanged, written here as the explicit `match`. -/
def TestRepo.with_data {α : Type} (t : WrappedRepo α) (data : List α) :
    Except CouchError Nat :=
  match t.client.db t.dbname with
  | .error e => .error e
  | .ok db =>
    match db.bulk_docs data with
    | .error e => .error e
    | .ok result => .ok result.length

/-- Instrumentation of `with_data`: the list of argument slices passed to
`bulk_docs` during the call.  The `?` on the `db` lookup returns before
`bulk_docs` when the lookup fails, so no call is made in that case;
otherwise `bulk_docs` is called exactly once, with `data` itself. -/
def TestRepo.with_data_calls {α : Type} (t : WrappedRepo α) (data : List α) :
    List (List α) :=
  match t.client.db t.dbname with
  | .error _ => []
  | .ok _ => [data]

/-! ## CancellationSignal (spec §4.2)

Modelled from the spec: the `CancellationToken` used at lib.rs:119, 172,
174-175, 178, 184 and 208-212 comes from the external `tokio_util` crate,
not from this repository; §4.2 of the spec defines the component
(`new` / `derive` / `raise` / `is_raised` over a shared raised flag per
signal tree).  A world holds the flag of every allocated tree, indexed by a
root id; a handle (root or derived child) is a reference to its tree
root, so all derived handles observe the same flag. -/

/-- Shared state of all signal trees: an allocation bound and the raised
flag of each tree, indexed by root id. -/
@[ext]
structure SignalWorld where
  next : Nat
  raised : Nat → Bool

/-- A handle in a signal tree: root and derived handles carry the same
root id and hence observe the same shared flag. -/
structure CancellationSignal where
  root : Nat
deriving DecidableEq, Repr

/-- The initial world: nothing allocated, nothing raised. -/
def SignalWorld.init : SignalWorld := { next := 0, raised := fun _ => false }

/-- `new()`: allocate a fresh, unraised root signal. -/
def CancellationSignal.fresh (w : SignalWorld) :
    CancellationSignal × SignalWorld :=
  ({ root := w.next }, { next := w.next + 1, raised := w.raised })

/-- `derive(signal)`: a new handle observing the same raised state. -/
def CancellationSignal.derive (s : CancellationSignal) : CancellationSignal :=
  { root := s.root }

/-- `raise(signal)`: idempotently mark the signal tree as raised. -/
def CancellationSignal.raise (w : SignalWorld) (s : CancellationSignal) :
    SignalWorld :=
  { next := w.next, raised := fun i => if i = s.root then true else w.raised i }

/-- `is_raised(signal)`: non-blocking observation of the shared flag. -/
def CancellationSignal.is_raised (w : SignalWorld) (s : CancellationSignal) :
    Bool :=
  w.raised s.root

/-- The state-changing operations of the signal API (`derive` and
`is_raised` leave the world unchanged). -/
inductive SignalOp where
  | newOp
  | raiseOp (s : CancellationSignal)

/-- Effect of one operation on the world. -/
def SignalOp.apply (w : SignalWorld) (op : SignalOp) : SignalWorld :=
  match op with
  | .newOp => (CancellationSignal.fresh w).2
  | .raiseOp s => CancellationSignal.raise w s

/-- Effect of a sequence of operations on the world. -/
def SignalOp.applyAll (w : SignalWorld) (ops : List SignalOp) : SignalWorld :=
  ops.foldl SignalOp.apply w

/-! ## The drop protocol as a transition system (lib.rs:177-185, 206-214)

Two concurrent components act after the owner lets the `TestRepo` go out
of scope: the destructor (`Drop::drop`, lib.rs:207-213) running on the
owning thread, and the watcher task spawned at lib.rs:177.  The shared
state is the pair of cancellation-token flags.  Sleeps (the 100 ms
intervals at lib.rs:179 and lib.rs:211) do not change state and are
omitted; every interleaving of the remaining atomic actions is a path in
the step relation. -/

/-- Program counter of the destructor (lib.rs:207-213). -/
inductive DPc where
  /-- about to execute `self.drop_token.cancel()` (lib.rs:208) -/
  | atCancel
  /-- inside `while !self.dropped_token.is_cancelled()` (lib.rs:210-212) -/
  | waiting
  /-- the destructor has returned (after lib.rs:213) -/
  | returned
deriving DecidableEq, Repr

/-- Program counter of the watcher task (lib.rs:177-185). -/
inductive WPc where
  /-- inside `while !drop_child.is_cancelled()` (lib.rs:178-180) -/
  | polling
  /-- `TestRepo::drop(cfg)` in flight (lib.rs:182) -/
  | destroying
  /-- `TestRepo::drop(cfg)` has returned -/
  | destroyed
  /-- `TestRepo::drop(cfg)` panicked; the tokio task aborted -/
  | taskAborted
  /-- `dropped_token.cancel()` executed (lib.rs:184); task finished -/
  | finished
deriving DecidableEq, Repr

/-- Joint state of the two components and the two token flags. -/
structure TeardownState where
  dpc : DPc
  wpc : WPc
  dropRaised : Bool
  droppedRaised : Bool
deriving DecidableEq, Repr

/-- State when the destructor is entered: watcher polling, neither token
cancelled. -/
def initTeardown : TeardownState :=
  { dpc := .atCancel, wpc := .polling, dropRaised := false,
    droppedRaised := false }

/-- One atomic action of either component.  The guards come from the
source: the destructor loop exits only when `dropped_token.is_cancelled()`
(lib.rs:210) and the watcher loop exits only when
`drop_child.is_cancelled()` (lib.rs:178). -/
inductive TeardownStep : TeardownState → TeardownState → Prop where
  /-- `self.drop_token.cancel()` (lib.rs:208), then the poll loop begins. -/
  | destructorCancel (w : WPc) (dr cr : Bool) :
      TeardownStep ⟨.atCancel, w, dr, cr⟩ ⟨.waiting, w, true, cr⟩
  /-- the destructor observes `dropped_token.is_cancelled()` and returns. -/
  | destructorUnblock (w : WPc) (dr : Bool) :
      TeardownStep ⟨.waiting, w, dr, true⟩ ⟨.returned, w, dr, true⟩
  /-- the watcher observes `drop_child.is_cancelled()` and leaves its loop,
  calling `TestRepo::drop(cfg)` (lib.rs:182). -/
  | watcherObserve (d : DPc) (cr : Bool) :
      TeardownStep ⟨d, .polling, true, cr⟩ ⟨d, .destroying, true, cr⟩
  /-- `TestRepo::drop(cfg)` returns (any destroy outcome). -/
  | watcherDestroyReturn (d : DPc) (dr cr : Bool) :
      TeardownStep ⟨d, .destroying, dr, cr⟩ ⟨d, .destroyed, dr, cr⟩
  /-- `TestRepo::drop(cfg)` panics; the task aborts without cancelling. -/
  | watcherDestroyPanic (d : DPc) (dr cr : Bool) :
      TeardownStep ⟨d, .destroying, dr, cr⟩ ⟨d, .taskAborted, dr, cr⟩
  /-- `dropped_token.cancel()` (lib.rs:184). -/
  | watcherRaiseDropped (d : DPc) (dr : Bool) (cr : Bool) :
      TeardownStep ⟨d, .destroyed, dr, cr⟩ ⟨d, .finished, dr, true⟩

/-- States reachable from the start of destruction. -/
def ReachableTeardown (s : TeardownState) : Prop :=
  Relation.ReflTransGen TeardownStep initTeardown s

/-- The watcher has attempted (or finished) the destroy call. -/
def destroyAttempted (w : WPc) : Bool :=
  match w with
  | .polling => false
  | _ => true

/-- The destroy call has returned (normally). -/
def destroyReturned (w : WPc) : Bool :=
  match w with
  | .destroyed => true
  | .finished => true
  | _ => false

/-- The ordering contract of the drop protocol: a destroy attempt implies
the teardown request was already raised; a raised completion signal implies
the destroy call already returned; an unblocked destructor implies the
completion signal was raised; and a destructor past its first statement has
already raised the request. -/
def OrderInv (s : TeardownState) : Prop :=
  (destroyAttempted s.wpc = true → s.dropRaised = true) ∧
  (s.droppedRaised = true → destroyReturned s.wpc = true) ∧
  (s.dpc = .returned → s.droppedRaised = true) ∧
  (s.dpc ≠ .atCancel → s.dropRaised = true)

/-! ## Concrete fixtures for closed witness theorems -/

/-- A concrete random source: every draw is index 0 (the character `A`). -/
def constSrc : Nat → Fin 62 := fun _ => 0

/-- A concrete configuration (spec §8, Scenario A base name). -/
def sampleCfg : TestRepoConfig :=
  TestRepoConfig.new "http://localhost:5984" "admin" "password" "orders_test"

/-- A store where every call succeeds. -/
def okOracle : StoreOracle :=
  { make_db := fun _ => .ok ()
    destroy_db := fun _ => .ok true
    client_new := fun _ _ _ => .ok () }

/-- A store whose `make_db` reports HTTP 412 (database already exists). -/
def collideOracle : StoreOracle :=
  { okOracle with
    make_db := fun _ =>
      .error { status := some 412, message := "Precondition Failed" } }

/-- A store whose `make_db` fails without a status code. -/
def failOracle : StoreOracle :=
  { okOracle with
    make_db := fun _ =>
      .error { status := none, message := "connection refused" } }

/-- A client constructor that fails (e.g. a malformed URI). -/
def badConnOracle : StoreOracle :=
  { okOracle with
    client_new := fun _ _ _ =>
      .error { status := none, message := "relative URL without a base" } }

/-- A store whose `destroy_db` fails with a server error. -/
def destroyErrOracle : StoreOracle :=
  { okOracle with
    destroy_db := fun _ =>
      .error { status := some 500, message := "internal server error" } }

/-! ## Claim theorems -/

/-- Claim C9: `with_name` replaces only the database-name field — the
returned config has `db_name` equal to the given unique name while `uri`,
`username` and `password` are unchanged; all operations on configs are
pure, so no field is ever mutated after creation. -/
theorem with_name_changes_only_db_name :
    ∀ (cfg : TestRepoConfig) (n : String),
      (cfg.with_name n).db_name = n ∧
      (cfg.with_name n).uri = cfg.uri ∧
      (cfg.with_name n).username = cfg.username ∧
      (cfg.with_name n).password = cfg.password :=
  fun _ _ => ⟨rfl, rfl, rfl, rfl⟩

/-- Every lowercased character of the alphanumeric sample alphabet is a
lowercase alphanumeric character. -/
theorem toLower_alphanumeric_mem :
    ∀ (j : Fin 62),
      Char.toLower (alphanumericChars.get
        (Fin.cast alphanumericChars_length.symm j)) ∈ lowercaseAlnumChars := by
  decide

/-- Claim C6: the generated unique database name is the base name, `"-"`,
then a 12-character suffix; each suffix character is a lowercase
alphanumeric character, obtained by indexing the full 62-symbol
alphanumeric alphabet with the corresponding uniform draw of the random
source and lowercasing it; generation is a pure function of the source. -/
theorem unique_name_generation :
    ∀ (src : Nat → Fin 62) (oracle : StoreOracle) (arg_cfg : TestRepoConfig),
      (TestRepo.new src oracle arg_cfg).cfg.db_name
          = arg_cfg.db_name ++ "-" ++ test_identifier src ∧
      (test_identifier src).length = 12 ∧
      (∀ c, c ∈ (test_identifier src).data → c ∈ lowercaseAlnumChars) ∧
      (test_identifier src).data
          = (List.range 12).map (fun i =>
              Char.toLower (alphanumericChars.get
                (Fin.cast alphanumericChars_length.symm (src i)))) := by
  intro src oracle arg_cfg
  refine ⟨rfl, rfl, ?_, rfl⟩
  intro c hc
  have hdata : (test_identifier src).data
      = (List.range 12).map (fun i =>
          Char.toLower (alphanumericChars.get
            (Fin.cast alphanumericChars_length.symm (src i)))) := rfl
  rw [hdata] at hc
  obtain ⟨i, _, hmap⟩ := List.mem_map.mp hc
  rw [← hmap]
  exact toLower_alphanumeric_mem (src i)

/-- Witness for C6 at a concrete source, oracle and config. -/
theorem unique_name_generation_witness :
    (TestRepo.new constSrc okOracle sampleCfg).cfg.db_name
        = "orders_test" ++ "-" ++ test_identifier constSrc ∧
      (test_identifier constSrc).length = 12 :=
  ⟨(unique_name_generation constSrc okOracle sampleCfg).1,
   (unique_name_generation constSrc okOracle sampleCfg).2.1⟩

/-- Claim C5: `TestRepo::new` returns a live handle exactly when
`make_db` on the derived unique name succeeds; on any creation failure it
panics — with the manual-cleanup collision message when the error status is
HTTP 412 (`PRECONDITION_FAILED`), and with the generic creation-error
message for any other status or for no status at all. -/
theorem new_create_outcome :
    ∀ (src : Nat → Fin 62) (oracle : StoreOracle) (arg_cfg : TestRepoConfig),
      ((TestRepo.new src oracle arg_cfg).result
          = PanicOr.ok { cfg := (TestRepo.new src oracle arg_cfg).cfg } ↔
        (oracle.make_db
          ((TestRepo.new src oracle arg_cfg).cfg.db_name)).isOk = true) ∧
      (∀ e, oracle.make_db ((TestRepo.new src oracle arg_cfg).cfg.db_name)
            = .error e →
        (TestRepo.new src oracle arg_cfg).result
          = PanicOr.panicked
              (if e.status = some PRECONDITION_FAILED then
                "Database " ++ (TestRepo.new src oracle arg_cfg).cfg.db_name ++
                  " already exists and must be manually removed."
              else
                "Error while creating new database: " ++ e.message)) := by
  intro src oracle arg_cfg
  simp only [TestRepo.new, TestRepoConfig.with_name]
  cases hmk : oracle.make_db (arg_cfg.db_name ++ "-" ++ test_identifier src) with
  | ok u =>
    constructor
    · simp [Except.isOk, Except.toBool]
    · intro e he
      exact absurd he (by simp)
  | error e =>
    constructor
    · constructor
      · intro hok
        rcases hst : e.status with _ | code
        · simp [hst] at hok
        · by_cases h412 : code = PRECONDITION_FAILED <;> simp [hst, h412] at hok
      · intro hok
        simp [Except.isOk, Except.toBool] at hok
    · intro f hf
      injection hf with hef
      subst hef
      rcases hst : e.status with _ | code
      · simp [hst]
      · by_cases h412 : code = PRECONDITION_FAILED <;> simp [hst, h412]

/-- Witness for C5: with a store reporting HTTP 412 on creation, `new`
panics with the manual-removal message for the derived unique name. -/
theorem new_create_outcome_witness :
    (TestRepo.new constSrc collideOracle sampleCfg).result
      = PanicOr.panicked
          ("Database " ++ (TestRepo.new constSrc collideOracle sampleCfg).cfg.db_name ++
            " already exists and must be manually removed.") := by
  have h := (new_create_outcome constSrc collideOracle sampleCfg).2
    { status := some 412, message := "Precondition Failed" } rfl
  simpa using h

/-- Claim C4 (divergence witness): when `make_db` on the derived unique
name fails, `TestRepo::new` has already spawned the watcher task
(lib.rs:120 precedes lib.rs:127) and panics without ever cancelling
`drop_token`; since the watcher loop at lib.rs:178 exits only when
`drop_child.is_cancelled()` and no live code path can still cancel it (the
`TestRepo` value was never constructed, so `Drop::drop` never runs), the
spawned task polls forever. -/
theorem new_failure_leaks_watcher :
    ∀ (src : Nat → Fin 62) (oracle : StoreOracle) (arg_cfg : TestRepoConfig)
      (e : CouchError),
      oracle.make_db ((TestRepo.new src oracle arg_cfg).cfg.db_name)
          = .error e →
      (TestRepo.new src oracle arg_cfg).watcher_spawned = true ∧
      (TestRepo.new src oracle arg_cfg).drop_raised = false ∧
      (∃ m, (TestRepo.new src oracle arg_cfg).result = PanicOr.panicked m) := by
  intro src oracle arg_cfg e he
  refine ⟨rfl, rfl, ?_⟩
  simp only [TestRepo.new, TestRepoConfig.with_name] at he ⊢
  rw [he]
  rcases hst : e.status with _ | code
  · simp [hst]
  · by_cases h412 : code = PRECONDITION_FAILED
    · simp [hst, h412]
    · simp [hst, h412]

/-- Witness for C4: with a store reporting HTTP 412 on creation, the
watcher was spawned, `drop_token` was never cancelled and `new` panicked. -/
theorem new_failure_leaks_watcher_witness :
    (TestRepo.new constSrc collideOracle sampleCfg).watcher_spawned = true ∧
    (TestRepo.new constSrc collideOracle sampleCfg).drop_raised = false ∧
    (∃ m, (TestRepo.new constSrc collideOracle sampleCfg).result
      = PanicOr.panicked m) :=
  new_failure_leaks_watcher constSrc collideOracle sampleCfg
    { status := some 412, message := "Precondition Failed" } rfl

/-- Claim C7: `with_data` forwards the record slice itself, in one call, to
`bulk_docs` against the database looked up under the stored fixture name;
on success it returns `Ok` of the number of result entries — which equals
the number of input records under the Store contract of one result entry
per input record (spec §6) — and a `bulk_docs` failure is returned as the
underlying `CouchError` unchanged. -/
theorem with_data_forwards_and_counts :
    ∀ (α : Type) (t : WrappedRepo α) (data : List α) (db : Database α),
      t.client.db t.dbname = .ok db →
      TestRepo.with_data_calls t data = [data] ∧
      (∀ results, db.bulk_docs data = .ok results →
        TestRepo.with_data t data = .ok results.length ∧
        (results.length = data.length →
          TestRepo.with_data t data = .ok data.length)) ∧
      (∀ e, db.bulk_docs data = .error e →
        TestRepo.with_data t data = .error e) := by
  intro α t data db h
  refine ⟨?_, ?_, ?_⟩
  · simp [TestRepo.with_data_calls, h]
  · intro results hr
    have hval : TestRepo.with_data t data = .ok results.length := by
      simp [TestRepo.with_data, h, hr]
    exact ⟨hval, fun hlen => by rw [hval, hlen]⟩
  · intro e he
    simp [TestRepo.with_data, h, he]

/-- Claim C10: if the database lookup for the fixture name fails,
`with_data` returns that `CouchError` unchanged and `bulk_docs` is never
called. -/
theorem with_data_lookup_error_short_circuits :
    ∀ (α : Type) (t : WrappedRepo α) (data : List α) (e : CouchError),
      t.client.db t.dbname = .error e →
      TestRepo.with_data t data = .error e ∧
      TestRepo.with_data_calls t data = [] := by
  intro α t data e h
  constructor
  · simp [TestRepo.with_data, h]
  · simp [TestRepo.with_data_calls, h]

/-- A concrete database over `Nat` records whose bulk write returns one
result entry per input record. -/
def natDb : Database Nat :=
  { bulk_docs := fun l =>
      .ok (l.map fun n => { id := toString n, okFlag := true }) }

/-- A concrete client that resolves every name to `natDb`. -/
def natClient : Client Nat := { db := fun _ => .ok natDb }

/-- A concrete wrapped repo over `natClient`. -/
def natRepo : WrappedRepo Nat :=
  { client := natClient, dbname := "orders_test-aaaaaaaaaaaa" }

/-- A concrete client whose database lookup always fails. -/
def badDbClient : Client Nat :=
  { db := fun _ => .error { status := some 404, message := "Object Not Found" } }

/-- A concrete wrapped repo whose database lookup fails. -/
def badDbRepo : WrappedRepo Nat :=
  { client := badDbClient, dbname := "orders_test-aaaaaaaaaaaa" }

/-- Witness for C7: writing two records through the concrete client
returns `Ok 2` (spec §8, Scenario A). -/
theorem with_data_forwards_and_counts_witness :
    TestRepo.with_data_calls natRepo [3, 7] = [[3, 7]] ∧
    TestRepo.with_data natRepo [3, 7] = .ok 2 := by
  have h := with_data_forwards_and_counts Nat natRepo [3, 7] natDb rfl
  exact ⟨h.1, ((h.2.1 _ rfl).2 rfl)⟩

/-- Witness for C10: with the failing lookup client, `with_data` returns
the 404 error and makes no bulk call. -/
theorem with_data_lookup_error_witness :
    TestRepo.with_data badDbRepo [3, 7]
        = .error { status := some 404, message := "Object Not Found" } ∧
    TestRepo.with_data_calls badDbRepo [3, 7] = [] :=
  with_data_lookup_error_short_circuits Nat badDbRepo [3, 7]
    { status := some 404, message := "Object Not Found" } rfl

/-- Claim C2: whenever the destroy-database attempt produces an outcome —
that is, the watcher task reached the `destroy_db` call, for any of its
results `Ok(true)`, `Ok(false)` or `Err(_)` — the watcher trace is exactly
the destroy call followed by one `dropped_token.cancel()`: the completion
signal is raised exactly once, after the destroy call returns, so no
destroy failure prevents the destructor wait from being released. -/
theorem watcher_signals_completion_once :
    ∀ (oracle : StoreOracle) (cfg : TestRepoConfig),
      (oracle.client_new cfg.uri cfg.username cfg.password).isOk = true →
      watcherAfterRequest oracle cfg
          = [WatcherEvent.destroyCall cfg.db_name
              (oracle.destroy_db cfg.db_name), WatcherEvent.raiseDropped] ∧
      (watcherAfterRequest oracle cfg).count WatcherEvent.raiseDropped = 1 := by
  intro oracle cfg hconn
  have htrace : watcherAfterRequest oracle cfg
      = [WatcherEvent.destroyCall cfg.db_name
          (oracle.destroy_db cfg.db_name), WatcherEvent.raiseDropped] := by
    cases hcn : oracle.client_new cfg.uri cfg.username cfg.password with
    | error e => rw [hcn] at hconn; simp [Except.isOk, Except.toBool] at hconn
    | ok u =>
      cases hds : oracle.destroy_db cfg.db_name with
      | ok b =>
        cases b <;> simp [watcherAfterRequest, TestRepo.drop, hcn, hds]
      | error e => simp [watcherAfterRequest, TestRepo.drop, hcn, hds]
  refine ⟨htrace, ?_⟩
  rw [htrace]
  simp [List.count_cons]

/-- Witness for C2 with a store whose destroy call fails: the completion
signal is still raised exactly once, after the failed destroy (spec §8,
Scenario C). -/
theorem watcher_signals_completion_once_witness :
    watcherAfterRequest destroyErrOracle sampleCfg
        = [WatcherEvent.destroyCall "orders_test"
            (.error { status := some 500, message := "internal server error" }),
           WatcherEvent.raiseDropped] ∧
    (watcherAfterRequest destroyErrOracle sampleCfg).count
        WatcherEvent.raiseDropped = 1 :=
  watcher_signals_completion_once destroyErrOracle sampleCfg rfl

/-- Claim C3 counterexample: at a concrete config and a Store whose client
constructor fails, `TestRepo::drop` does not complete normally — the
`unwrap` at lib.rs:192 panics — refuting the claim that the cleanup
function completes normally for every possible result of reconnecting. -/
theorem drop_panics_on_connection_failure :
    (TestRepo.drop badConnOracle sampleCfg).isCompleted = false ∧
    TestRepo.drop badConnOracle sampleCfg
      = DropOutcome.panicked
          "called Result::unwrap on an Err value: relative URL without a base" :=
  ⟨rfl, rfl⟩

/-- Claim C3 (amended): when reconnecting to the Store succeeds,
`TestRepo::drop` completes normally for every destroy-database result,
emitting exactly one log line describing the outcome and propagating
nothing; a reconnection failure, however, panics (the source unwraps
`Client::new`, commented "panic on fail"). -/
theorem drop_completes_when_connection_ok :
    ∀ (oracle : StoreOracle) (cfg : TestRepoConfig),
      (oracle.client_new cfg.uri cfg.username cfg.password).isOk = true →
      (oracle.destroy_db cfg.db_name = .ok true →
        TestRepo.drop oracle cfg
          = .completed [.info ("Cleaned up database " ++ cfg.db_name)]) ∧
      (oracle.destroy_db cfg.db_name = .ok false →
        TestRepo.drop oracle cfg
          = .completed [.info ("Failed to clean up database " ++ cfg.db_name)]) ∧
      (∀ e, oracle.destroy_db cfg.db_name = .error e →
        TestRepo.drop oracle cfg
          = .completed [.errorMsg ("Error while cleaning up " ++ cfg.db_name ++
              ": " ++ e.message)]) ∧
      (∃ logs, TestRepo.drop oracle cfg = .completed logs) := by
  intro oracle cfg hconn
  cases hcn : oracle.client_new cfg.uri cfg.username cfg.password with
  | error e => rw [hcn] at hconn; simp [Except.isOk, Except.toBool] at hconn
  | ok u =>
    refine ⟨?_, ?_, ?_, ?_⟩
    · intro hds; simp [TestRepo.drop, hcn, hds]
    · intro hds; simp [TestRepo.drop, hcn, hds]
    · intro e hds; simp [TestRepo.drop, hcn, hds]
    · cases hds : oracle.destroy_db cfg.db_name with
      | ok b =>
        cases b
        · exact ⟨[.info ("Failed to clean up database " ++ cfg.db_name)],
            by simp [TestRepo.drop, hcn, hds]⟩
        · exact ⟨[.info ("Cleaned up database " ++ cfg.db_name)],
            by simp [TestRepo.drop, hcn, hds]⟩
      | error e =>
        exact ⟨[.errorMsg ("Error while cleaning up " ++ cfg.db_name ++
            ": " ++ e.message)],
          by simp [TestRepo.drop, hcn, hds]⟩

/-- Witness for the amended C3: with a connectable store whose destroy
fails with a server error, `drop` completes normally and logs the error. -/
theorem drop_completes_when_connection_ok_witness :
    TestRepo.drop destroyErrOracle sampleCfg
      = DropOutcome.completed
          [.errorMsg "Error while cleaning up orders_test: internal server error"] := by
  have h := (drop_completes_when_connection_ok destroyErrOracle sampleCfg rfl).2.2.1
    { status := some 500, message := "internal server error" } rfl
  simpa using h

/-- One state-changing signal operation preserves a raised flag: `new`
allocates without touching existing trees, and `raise` only sets flags. -/
theorem signal_apply_mono :
    ∀ (w : SignalWorld) (op : SignalOp) (s : CancellationSignal),
      CancellationSignal.is_raised w s = true →
      CancellationSignal.is_raised (SignalOp.apply w op) s = true := by
  intro w op s h
  cases op with
  | newOp => exact h
  | raiseOp t =>
    simp only [SignalOp.apply, CancellationSignal.is_raised,
      CancellationSignal.raise] at h ⊢
    by_cases hr : s.root = t.root <;> simp [hr, h]

/-- Claim C8: `raise` is idempotent (raising an already-raised signal
leaves the shared state unchanged, and being a total function it cannot
error) and irreversible — a derived handle observes exactly the shared
flag of its source, raising makes the flag observed by the handle and
every derived handle `true`, and no sequence of further API operations
ever makes it `false` again. -/
theorem signal_raise_idempotent_and_irreversible :
    ∀ (w : SignalWorld) (s : CancellationSignal),
      CancellationSignal.raise (CancellationSignal.raise w s) s
          = CancellationSignal.raise w s ∧
      CancellationSignal.is_raised w s.derive
          = CancellationSignal.is_raised w s ∧
      CancellationSignal.is_raised (CancellationSignal.raise w s) s = true ∧
      CancellationSignal.is_raised (CancellationSignal.raise w s) s.derive
          = true ∧
      (∀ ops, CancellationSignal.is_raised w s = true →
        CancellationSignal.is_raised (SignalOp.applyAll w ops) s = true) := by
  intro w s
  refine ⟨?_, rfl, ?_, ?_, ?_⟩
  · ext i
    · rfl
    · simp only [CancellationSignal.raise]
      by_cases h : i = s.root <;> simp [h]
  · simp [CancellationSignal.is_raised, CancellationSignal.raise]
  · simp [CancellationSignal.is_raised, CancellationSignal.raise,
      CancellationSignal.derive]
  · intro ops
    induction ops generalizing w with
    | nil => intro h; exact h
    | cons op rest ih =>
      intro h
      exact ih (SignalOp.apply w op) (signal_apply_mono w op s h)

/-- Witness for C8: after raising the root of the first allocated tree and
then running further operations (a fresh allocation and a raise of an
unrelated tree), the original handle still observes `true`. -/
theorem signal_raise_witness :
    CancellationSignal.is_raised
        (SignalOp.applyAll
          (CancellationSignal.raise SignalWorld.init { root := 0 })
          [SignalOp.newOp, SignalOp.raiseOp { root := 3 }])
        { root := 0 } = true :=
  (signal_raise_idempotent_and_irreversible
      (CancellationSignal.raise SignalWorld.init { root := 0 })
      { root := 0 }).2.2.2.2
    [SignalOp.newOp, SignalOp.raiseOp { root := 3 }] (by decide)

/-- Claim C1: every state reachable in the drop protocol satisfies the
ordering contract — the destructor raises the teardown request before it
begins waiting; the watcher attempts the destroy call only after the
request is raised; the teardown-complete flag is raised only after the
destroy call has returned; and the destructor unblocks only after the
complete flag is raised.  Chaining the conjuncts gives the total order:
request raised, then destroy attempted, then complete raised, then
destructor unblocked. -/
theorem teardown_order_invariant :
    ∀ (s : TeardownState), ReachableTeardown s → OrderInv s := by
  intro s h
  induction h with
  | refl => exact ⟨by decide, by decide, by decide, by decide⟩
  | tail hab hbc ih =>
    obtain ⟨ih1, ih2, ih3, ih4⟩ := ih
    cases hbc with
    | destructorCancel w dr cr =>
      refine ⟨?_, ?_, ?_, ?_⟩
      · intro _; rfl
      · intro hc; exact ih2 hc
      · intro hd; exact DPc.noConfusion hd
      · intro _; rfl
    | destructorUnblock w dr =>
      refine ⟨?_, ?_, ?_, ?_⟩
      · intro ha; exact ih1 ha
      · intro _; exact ih2 rfl
      · intro _; rfl
      · intro _; exact ih4 (fun habs => DPc.noConfusion habs)
    | watcherObserve d cr =>
      refine ⟨?_, ?_, ?_, ?_⟩
      · intro _; rfl
      · intro hc; exact Bool.noConfusion (ih2 hc)
      · intro hd; exact ih3 hd
      · intro _; rfl
    | watcherDestroyReturn d dr cr =>
      refine ⟨?_, ?_, ?_, ?_⟩
      · intro _; exact ih1 rfl
      · intro _; rfl
      · intro hd; exact ih3 hd
      · intro hd; exact ih4 hd
    | watcherDestroyPanic d dr cr =>
      refine ⟨?_, ?_, ?_, ?_⟩
      · intro _; exact ih1 rfl
      · intro hc; exact Bool.noConfusion (ih2 hc)
      · intro hd; exact ih3 hd
      · intro hd; exact ih4 hd
    | watcherRaiseDropped d dr cr =>
      refine ⟨?_, ?_, ?_, ?_⟩
      · intro _; exact ih1 rfl
      · intro _; rfl
      · intro _; rfl
      · intro hd; exact ih4 hd

/-- The state in which the whole protocol has completed: destructor
returned, watcher finished, both tokens cancelled. -/
def finalTeardown : TeardownState :=
  { dpc := .returned, wpc := .finished, dropRaised := true,
    droppedRaised := true }

/-- Witness for C1: the completed protocol state is reachable by the
expected interleaving (cancel, observe, destroy, raise complete, unblock)
and satisfies the ordering contract. -/
theorem teardown_order_invariant_witness :
    ReachableTeardown finalTeardown ∧ OrderInv finalTeardown := by
  have hreach : ReachableTeardown finalTeardown := by
    refine Relation.ReflTransGen.tail (Relation.ReflTransGen.tail
      (Relation.ReflTransGen.tail (Relation.ReflTransGen.tail
        (Relation.ReflTransGen.tail Relation.ReflTransGen.refl
          (TeardownStep.destructorCancel .polling false false))
        (TeardownStep.watcherObserve .waiting false))
      (TeardownStep.watcherDestroyReturn .waiting true false))
      (TeardownStep.watcherRaiseDropped .waiting true false))
      (TeardownStep.destructorUnblock .finished true)
  exact ⟨hreach, teardown_order_invariant finalTeardown hreach⟩

end CouchRsTest
